import Mathlib

/-!
Verification of the Nodecaf server core (src/lib/main.js) against its
natural-language specification.  The definitions below are a shallow
embedding of the JavaScript source: the `accept` middleware factory, the
`validateOpts`/constructor option validation, the `setup`/`start`/`stop`/
`restart` lifecycle methods, and a small-step interleaving model of two
concurrent lifecycle calls at the granularity of the source's `await`
points.
-/

namespace Nodecaf

/-! ### Content-type gate: `accept(types)` (src/lib/main.js lines 88-95) -/

/-- The `SHORT_TYPES` table (src/lib/main.js lines 11-15): short aliases for
full mime types.  `SHORT_TYPES[t] || t` keeps `t` when no alias exists. -/
def SHORT_TYPES : String → Option String := fun t =>
  if t = "form" then some "multipart/form-data"
  else if t = "urlencoded" then some "application/x-www-form-urlencoded"
  else if t = "json" then some "application/json"
  else none

/-- Line 89: `types = [].concat(types).map(t => SHORT_TYPES[t] || t)`.
The `[].concat` call normalises a single string to a one-element list, so we
model the argument as the resulting list. -/
def expandTypes (types : List String) : List String :=
  types.map (fun t => (SHORT_TYPES t).getD t)

/-- The slice of a request visible to the gate: the (possibly raw) `body`
argument and `req.body.type`, the declared content type recorded by the body
parser (`none` when the request declared no content type). -/
structure Req where
  body : String
  ctype : Option String
deriving DecidableEq

/-- Outcome of running one middleware: either it calls `next()` or it ends
the response with a status and a body. -/
inductive GateResult where
  | next
  | respond (status : Nat) (body : String)
deriving DecidableEq

/-- The `types.includes(req.body.type)` test: an absent content type
(`undefined`) is never an element of the string list. -/
def declaredListed (ts : List String) : Option String → Bool
  | some t => ts.contains t
  | none => false

/-- Lines 90-94: the middleware returned by `accept(types)`.
`if(body !== '' && !types.includes(req.body.type)) return res.status(415).end();
next();` — note the source responds 415 with an empty body. -/
def acceptGate (types : List String) (r : Req) : GateResult :=
  let ts := expandTypes types
  if r.body != "" && ! declaredListed ts r.ctype then
    GateResult.respond 415 ""
  else
    GateResult.next

/-- Status projection of a gate outcome (`none` when the gate passed). -/
def gateStatus : GateResult → Option Nat
  | GateResult.next => none
  | GateResult.respond s _ => some s

/-- Body projection of a gate outcome. -/
def gateBody : GateResult → Option String
  | GateResult.next => none
  | GateResult.respond _ b => some b

/-! ### Constructor option validation (src/lib/main.js lines 34-77) -/

/-- A JavaScript value, restricted to the shapes `validateOpts` can observe.
`objv` stands for a plain (non-function) object value used in a field
position. -/
inductive JSVal where
  | undef
  | null
  | bool (b : Bool)
  | num (n : Int)
  | str (s : String)
  | func (id : Nat)
  | objv
deriving DecidableEq

/-- JavaScript `typeof` (note `typeof null == 'object'`). -/
def typeofStr : JSVal → String
  | JSVal.undef => "undefined"
  | JSVal.null => "object"
  | JSVal.bool _ => "boolean"
  | JSVal.num _ => "number"
  | JSVal.str _ => "string"
  | JSVal.func _ => "function"
  | JSVal.objv => "object"

/-- JavaScript truthiness. -/
def truthy : JSVal → Bool
  | JSVal.undef => false
  | JSVal.null => false
  | JSVal.bool b => b
  | JSVal.num n => n != 0
  | JSVal.str s => s != ""
  | JSVal.func _ => true
  | JSVal.objv => true

/-- Whether a value is a function. -/
def isFunc : JSVal → Bool
  | JSVal.func _ => true
  | _ => false

/-- JavaScript `a || b`. -/
def jsOr (v d : JSVal) : JSVal :=
  if truthy v then v else d

/-- The `noop` function installed as default hook (lines 17-18). -/
def jsNoop : JSVal := JSVal.func 0

/-- The default server builder `() => http.createServer()` (line 41). -/
def defaultBuilder : JSVal := JSVal.func 1

/-- The fields of an options object that `validateOpts` reads. -/
structure Opts where
  api : JSVal := JSVal.undef
  startup : JSVal := JSVal.undef
  shutdown : JSVal := JSVal.undef
  server : JSVal := JSVal.undef
deriving DecidableEq

/-- The constructor argument: either a plain options object with fields, or
some other JavaScript value. -/
inductive OptsArg where
  | val (v : JSVal)
  | obj (o : Opts)
deriving DecidableEq

/-- `typeof opts`. -/
def typeofArg : OptsArg → String
  | OptsArg.val v => typeofStr v
  | OptsArg.obj _ => "object"

/-- Property access `opts.f`: throws a TypeError on `null`/`undefined`,
yields `undefined` on other primitives, reads the field on objects. -/
def getField (arg : OptsArg) (sel : Opts → JSVal) : Except String JSVal :=
  match arg with
  | OptsArg.obj o => Except.ok (sel o)
  | OptsArg.val JSVal.null => Except.error "TypeError: cannot read properties of null"
  | OptsArg.val JSVal.undef => Except.error "TypeError: cannot read properties of undefined"
  | OptsArg.val _ => Except.ok JSVal.undef

/-- The hook functions resolved by `validateOpts` (lines 38-41). -/
structure Hooks where
  apiSpec : JSVal
  startupFn : JSVal
  shutdownFn : JSVal
  serverBuilder : JSVal
deriving DecidableEq

instance : DecidableEq (Except String Hooks) := fun a b =>
  match a, b with
  | Except.ok x, Except.ok y =>
    if h : x = y then isTrue (by rw [h]) else isFalse (by intro hc; cases hc; exact h rfl)
  | Except.error x, Except.error y =>
    if h : x = y then isTrue (by rw [h]) else isFalse (by intro hc; cases hc; exact h rfl)
  | Except.ok _, Except.error _ => isFalse (by intro hc; cases hc)
  | Except.error _, Except.ok _ => isFalse (by intro hc; cases hc)

/-- `validateOpts` (lines 34-58): asserts `typeof opts == 'object'`, resolves
each option with `opts.x || noop` (or the default server builder), then
asserts each resolved value is a function, throwing a TypeError otherwise. -/
def validateOpts (arg : OptsArg) : Except String Hooks :=
  if typeofArg arg ≠ "object" then
    Except.error "TypeError: Options argument must be an object"
  else
    match getField arg (fun o => o.api) with
    | Except.error e => Except.error e
    | Except.ok api =>
    match getField arg (fun o => o.startup) with
    | Except.error e => Except.error e
    | Except.ok su =>
    match getField arg (fun o => o.shutdown) with
    | Except.error e => Except.error e
    | Except.ok sd =>
    match getField arg (fun o => o.server) with
    | Except.error e => Except.error e
    | Except.ok sv =>
      let apiSpec := jsOr api jsNoop
      let startupFn := jsOr su jsNoop
      let shutdownFn := jsOr sd jsNoop
      let serverBuilder := jsOr sv defaultBuilder
      if ¬ isFunc apiSpec then
        Except.error "TypeError: API builder must be a function"
      else if ¬ isFunc startupFn then
        Except.error "TypeError: Startup handler must be a function"
      else if ¬ isFunc shutdownFn then
        Except.error "TypeError: Shutdown handler must be a function"
      else if ¬ isFunc serverBuilder then
        Except.error "TypeError: Server builder must be a function"
      else
        Except.ok ⟨apiSpec, startupFn, shutdownFn, serverBuilder⟩

/-- The constructor (lines 62-77): `constructor(opts = {})` defaults the
argument to an empty object when `undefined`, then runs `validateOpts`.
The remainder of the body (flag init, `setup`, API build) is modelled as
total: `setup` merges configuration and rebuilds logger and cors middleware,
and the API build for a noop spec registers nothing; neither throws. -/
def nodecafNew (arg : OptsArg) : Except String Hooks :=
  let opts := if arg = OptsArg.val JSVal.undef then OptsArg.obj {} else arg
  validateOpts opts

/-- Whether an `Except` result is an error (a thrown TypeError here). -/
def isError : Except String Hooks → Bool
  | Except.error _ => true
  | Except.ok _ => false

/-- A supplied option value that is truthy yet not a function: exactly the
values that survive `x || noop` and then fail the `typeof == 'function'`
assertion. -/
def truthyNonFunc (v : JSVal) : Bool :=
  truthy v && ! isFunc v

/-! ### Configuration snapshots and the lifecycle (src/lib/main.js lines 79-163) -/

/-- A top-level configuration value. -/
inductive CVal where
  | num (n : Int)
  | str (s : String)
  | bool (b : Bool)
deriving DecidableEq

/-- JavaScript truthiness of a configuration value. -/
def cvalTruthy : CVal → Bool
  | CVal.num n => n != 0
  | CVal.str s => s != ""
  | CVal.bool b => b

/-- A configuration snapshot: top-level keys to values, first binding of a
key wins on lookup. -/
abbrev Conf : Type := List (String × CVal)

/-- Key lookup in a snapshot. -/
def confGet (c : Conf) (k : String) : Option CVal :=
  (c.find? (fun p => p.1 == k)).map (fun p => p.2)

/-- Modelled from the spec: the external `confort` collaborator (line 80,
`this.conf = confort(this.conf, objectOrPath || {})`) layers the supplied
source over the current snapshot, later layers overriding earlier keys
shallowly at the top level.  Observed through `confGet`, placing the new
layer first gives exactly that override semantics. -/
def confortLayer (old new : Conf) : Conf :=
  new ++ old

/-- Truthiness of `this.conf.port` (line 118, `if(this.conf.port)`). -/
def confPortTruthy (c : Conf) : Bool :=
  match confGet c "port" with
  | some v => cvalTruthy v
  | none => false

/-- The configured port value passed to the listener. -/
def portVal (c : Conf) : CVal :=
  (confGet c "port").getD (CVal.bool false)

/-- The lifecycle states of the server (`this.state`). -/
inductive LState where
  | standby
  | starting
  | running
  | stopping
deriving DecidableEq

/-- The slice of a `Nodecaf` instance that the lifecycle methods touch.
`globalSet` records whether `this.global` exists, `serverSet` whether
`this._server` holds a listener.  `startupErr`/`shutdownErr` are `some e`
when the user hook fails with error `e`, `none` when it succeeds.
`startupNoop` is the `noop.noop` marker tested on line 113. -/
structure App where
  state : LState
  conf : Conf
  globalSet : Bool
  serverSet : Bool
  startupNoop : Bool
  startupErr : Option String
  shutdownErr : Option String
deriving DecidableEq

/-- Observable side effects of one lifecycle call, in program order. -/
inductive Eff where
  | waitDelay
  | logStartingUp
  | runStartup
  | bindListener (port : CVal)
  | logStarted
  | closeListener
  | runShutdown
  | logStopped
  | logReloaded
deriving DecidableEq

/-- Result of a lifecycle call: the value it resolves with, the error it
rejects with, or `retry` for the `retryShortly` polling path (lines 30-32),
which re-invokes the same method after a fixed 1000 ms backoff without
touching any instance state. -/
inductive LRes where
  | ok (s : LState)
  | err (e : String)
  | retry
deriving DecidableEq

/-- The instance after a lifecycle call, the effect trace it produced and
its result. -/
structure Outcome where
  app : App
  trace : List Eff
  res : LRes
deriving DecidableEq

/-- `start()` (lines 97-124) as a sequential function: early return of the
current state when `running`/`starting`; the polling path when `stopping`;
otherwise set `starting`, await the delay, create `this.global`, log the
startup message unless the hook is the noop, run the startup hook
(propagating its failure with the state still `starting`), then either bind
a listener on `conf.port` or log the headless started event, and finish
`running`. -/
def startSeq (a : App) : Outcome :=
  if a.state = LState.running ∨ a.state = LState.starting then
    ⟨a, [], LRes.ok a.state⟩
  else if a.state = LState.stopping then
    ⟨a, [], LRes.retry⟩
  else
    let a2 : App := { a with state := LState.starting, globalSet := true }
    let tr : List Eff :=
      Eff.waitDelay :: (if a.startupNoop then [] else [Eff.logStartingUp]) ++ [Eff.runStartup]
    match a.startupErr with
    | some e => ⟨a2, tr, LRes.err e⟩
    | none =>
      if confPortTruthy a.conf then
        ⟨{ a2 with state := LState.running, serverSet := true },
          tr ++ [Eff.bindListener (portVal a.conf)], LRes.ok LState.running⟩
      else
        ⟨{ a2 with state := LState.running },
          tr ++ [Eff.logStarted], LRes.ok LState.running⟩

/-- `stop()` (lines 126-146) as a sequential function: early return of the
current state when `stopping`/`standby`; the polling path when `starting`;
otherwise set `stopping`, close the listener when one is bound, run the
shutdown hook (propagating its failure with the state still `stopping`),
delete `this.global`, log the stop event and finish `standby`.  When no
listener was ever bound (`this._server` undefined) the close is skipped and
`await closedPromise` awaits `undefined`, which never throws. -/
def stopSeq (a : App) : Outcome :=
  if a.state = LState.stopping ∨ a.state = LState.standby then
    ⟨a, [], LRes.ok a.state⟩
  else if a.state = LState.starting then
    ⟨a, [], LRes.retry⟩
  else
    let a1 : App := { a with state := LState.stopping }
    let tr : List Eff :=
      (if a.serverSet then [Eff.closeListener] else []) ++ [Eff.runShutdown]
    match a.shutdownErr with
    | some e => ⟨a1, tr, LRes.err e⟩
    | none =>
      ⟨{ a1 with state := LState.standby, globalSet := false },
        tr ++ [Eff.logStopped], LRes.ok LState.standby⟩

/-- `restart(conf)` (lines 156-163): await `stop()` (propagating a failure
or suspension), then when a configuration object was supplied log the
reloaded-settings event and layer it via `setup`, then await `start()`. -/
def restartSeq (a : App) (c : Option Conf) : Outcome :=
  let o1 := stopSeq a
  match o1.res with
  | LRes.ok _ =>
    let stage :=
      match c with
      | some cf =>
        ({ o1.app with conf := confortLayer o1.app.conf cf }, o1.trace ++ [Eff.logReloaded])
      | none => (o1.app, o1.trace)
    let o3 := startSeq stage.1
    ⟨o3.app, stage.2 ++ o3.trace, o3.res⟩
  | r => ⟨o1.app, o1.trace, r⟩

/-- Whether an effect is a listener bind. -/
def isBind : Eff → Bool
  | Eff.bindListener _ => true
  | _ => false

/-! ### Interleaving model of two concurrent lifecycle calls

JavaScript interleaves `async` functions only at `await` points, so a
lifecycle call is a sequence of atomic blocks separated by the `await`s of
lines 102/106/116/119 (start) and 131/138/139 (stop).  Each thread is a
program counter; the shared state is `this.state` plus a count of listener
binds.  A guard block runs the early-return checks and, when it proceeds,
the assignment to `this.state` — there is no `await` between them, so they
form one atomic step. -/

/-- Program counter of one lifecycle call.  `g` is the guard block; `s1`-`s3`
are the blocks of `start` between its awaits (post-delay, post-startup-hook,
post-listen); `t1`-`t2` those of `stop` (post-shutdown-hook, post-close);
`fEarly` finished via the early-return path, `fOk` finished after doing the
transition work. -/
inductive PC where
  | g
  | s1
  | s2
  | s3
  | t1
  | t2
  | fEarly
  | fOk
deriving DecidableEq

/-- Shared state plus the two program counters.  `bind` counts listener
binds performed so far. -/
structure Sys where
  st : LState
  bind : Nat
  pc1 : PC
  pc2 : PC
deriving DecidableEq

/-- One atomic step of a thread executing `start()` on a server whose
configuration has a port.  At `g`: lines 99-104 — early return when
`running`/`starting`, poll again (state untouched) when `stopping`,
otherwise set `starting`.  `g → s1` crosses the delay await (line 106);
`s1 → s2` sets `this.global`, runs the startup hook and awaits it
(lines 108-116); `s2 → s3` performs the listener bind and awaits it
(line 119); `s3 → fOk` sets `running` and returns (line 123). -/
def startStepT : LState → Nat → PC → Option (LState × Nat × PC)
  | st, b, PC.g =>
    match st with
    | LState.running => some (st, b, PC.fEarly)
    | LState.starting => some (st, b, PC.fEarly)
    | LState.stopping => some (st, b, PC.g)
    | LState.standby => some (LState.starting, b, PC.s1)
  | st, b, PC.s1 => some (st, b, PC.s2)
  | st, b, PC.s2 => some (st, b + 1, PC.s3)
  | _, b, PC.s3 => some (LState.running, b, PC.fOk)
  | _, _, _ => none

/-- One atomic step of a thread executing `stop()`.  At `g`: lines 127-133 —
early return when `stopping`/`standby`, poll again when `starting`,
otherwise set `stopping`.  `g → t1` initiates the close and awaits the
shutdown hook (lines 136-138); `t1 → t2` awaits the close (line 139);
`t2 → fOk` deletes the globals, logs, sets `standby` and returns
(lines 141-145). -/
def stopStepT : LState → Nat → PC → Option (LState × Nat × PC)
  | st, b, PC.g =>
    match st with
    | LState.stopping => some (st, b, PC.fEarly)
    | LState.standby => some (st, b, PC.fEarly)
    | LState.starting => some (st, b, PC.g)
    | LState.running => some (LState.stopping, b, PC.t1)
  | st, b, PC.t1 => some (st, b, PC.t2)
  | _, b, PC.t2 => some (LState.standby, b, PC.fOk)
  | _, _, _ => none

/-- Nondeterministic system step: either thread takes its next atomic
block.  `f1`/`f2` are the per-thread step functions of the two calls. -/
def sysStep (f1 f2 : LState → Nat → PC → Option (LState × Nat × PC))
    (s : Sys) : List Sys :=
  (match f1 s.st s.bind s.pc1 with
   | some (st, b, p) => [⟨st, b, p, s.pc2⟩]
   | none => []) ++
  (match f2 s.st s.bind s.pc2 with
   | some (st, b, p) => [⟨st, b, s.pc1, p⟩]
   | none => [])

/-- Reachability under a system step function. -/
inductive Reaches (f : Sys → List Sys) (init : Sys) : Sys → Prop where
  | refl : Reaches f init init
  | tail : ∀ {s t : Sys}, Reaches f init s → t ∈ f s → Reaches f init t

/-- One saturation round of explicit-state exploration. -/
def stepClose (f : Sys → List Sys) (l : List Sys) : List Sys :=
  (l ++ l.flatMap f).dedup

/-- Iterated saturation. -/
def reachIter (f : Sys → List Sys) : Nat → List Sys → List Sys
  | 0, l => l
  | n + 1, l => reachIter f n (stepClose f l)

/-- Every reachable state lies in any step-closed superset of the initial
state. -/
theorem reaches_mem {f : Sys → List Sys} {init : Sys} {RS : List Sys}
    (hi : init ∈ RS) (hc : ∀ s ∈ RS, ∀ t ∈ f s, t ∈ RS) :
    ∀ s : Sys, Reaches f init s → s ∈ RS := by
  intro s h
  induction h with
  | refl => exact hi
  | tail hr hm ih => exact hc _ ih _ hm

/-- Two concurrent `start()` calls racing from `standby`. -/
def stepSS : Sys → List Sys := sysStep startStepT startStepT

/-- Initial state of the start/start race: server in `standby`, no listener,
both calls at their guard. -/
def initSS : Sys := ⟨LState.standby, 0, PC.g, PC.g⟩

/-- Explicit reachable-state set of the start/start race. -/
def reachSS : List Sys := reachIter stepSS 12 [initSS]

/-- A `stop()` in progress (past its guard, state `stopping`) raced by a
`start()` arriving at its guard. -/
def stepTS : Sys → List Sys := sysStep stopStepT startStepT

/-- Initial state of that race. -/
def initTS : Sys := ⟨LState.stopping, 0, PC.t1, PC.g⟩

/-- Explicit reachable-state set of the stop-then-start race. -/
def reachTS : List Sys := reachIter stepTS 12 [initTS]

/-- A `start()` in progress (past its guard, state `starting`) raced by a
`stop()` arriving at its guard. -/
def stepST : Sys → List Sys := sysStep startStepT stopStepT

/-- Initial state of that race. -/
def initST : Sys := ⟨LState.starting, 0, PC.s1, PC.g⟩

/-- Explicit reachable-state set of the start-then-stop race. -/
def reachST : List Sys := reachIter stepST 12 [initST]

/-- Whether a thread has finished. -/
def isDone : PC → Bool
  | PC.fEarly => true
  | PC.fOk => true
  | _ => false

/-- Whether a thread is inside the critical transition work of `start`. -/
def critStart : PC → Bool
  | PC.s1 => true
  | PC.s2 => true
  | PC.s3 => true
  | _ => false

/-- Whether a thread is inside the critical transition work of `stop`. -/
def critStop : PC → Bool
  | PC.t1 => true
  | PC.t2 => true
  | _ => false

/-- The start/start reach set contains its initial state. -/
theorem reachSS_init : initSS ∈ reachSS := by decide

/-- The start/start reach set is closed under system steps. -/
theorem reachSS_closed : ∀ s ∈ reachSS, ∀ t ∈ stepSS s, t ∈ reachSS := by decide

/-- The stop-then-start reach set contains its initial state. -/
theorem reachTS_init : initTS ∈ reachTS := by decide

/-- The stop-then-start reach set is closed under system steps. -/
theorem reachTS_closed : ∀ s ∈ reachTS, ∀ t ∈ stepTS s, t ∈ reachTS := by decide

/-- The start-then-stop reach set contains its initial state. -/
theorem reachST_init : initST ∈ reachST := by decide

/-- The start-then-stop reach set is closed under system steps. -/
theorem reachST_closed : ∀ s ∈ reachST, ∀ t ∈ stepST s, t ∈ reachST := by decide

/-! ### Claim C1 -/

/-- Claim C1, counterexample: the whitelist `["json"]` with a non-empty
body declaring `text/xml` is rejected, but with status 415 and an empty
body — not with status 400 and a body matching "Unsupported content-type
text/xml" as the claim states. -/
theorem accept_gate_cex_415 :
    acceptGate ["json"] ⟨"payload", some "text/xml"⟩ = GateResult.respond 415 "" ∧
    gateStatus (acceptGate ["json"] ⟨"payload", some "text/xml"⟩) ≠ some 400 ∧
    gateBody (acceptGate ["json"] ⟨"payload", some "text/xml"⟩) = some "" := by
  decide

/-- Claim C1, amended: for every request carrying a non-empty body whose
declared content type is not in the effective accepted-types whitelist, the
gate produced by `accept(types)` rejects the request with HTTP status 415
and an empty body, without invoking the next handler in the chain. -/
theorem accept_gate_unlisted_type_415 (types : List String) (b t : String)
    (hb : b ≠ "") (ht : (expandTypes types).contains t = false) :
    acceptGate types ⟨b, some t⟩ = GateResult.respond 415 "" ∧
    acceptGate types ⟨b, some t⟩ ≠ GateResult.next := by
  have ht2 : t ∉ expandTypes types := by simpa using ht
  constructor
  · simp [acceptGate, declaredListed, ht2, hb]
  · simp [acceptGate, declaredListed, ht2, hb]

/-- Claim C1 witness: instantiates the amended theorem on a concrete
request. -/
theorem accept_gate_unlisted_type_415_witness :
    acceptGate ["json"] ⟨"foo=bar", some "text/html"⟩ = GateResult.respond 415 "" ∧
    acceptGate ["json"] ⟨"foo=bar", some "text/html"⟩ ≠ GateResult.next :=
  accept_gate_unlisted_type_415 ["json"] "foo=bar" "text/html" (by decide) (by decide)

/-! ### Claim C8 -/

/-- Claim C8: for every request whose body is empty, the gate produced by
`accept(types)` invokes the next handler, regardless of the whitelist and of
the request's declared content type. -/
theorem accept_gate_empty_body_next (types : List String) (ct : Option String) :
    acceptGate types ⟨"", ct⟩ = GateResult.next := by
  simp [acceptGate]

/-! ### Claim C9 -/

/-- Claim C9, counterexample: `new Nodecaf({ api: false })` supplies an
`api` option that is not a function, yet the constructor succeeds (the
falsy value falls back to the noop hook via `opts.api || noop`), against
the claim that any supplied non-function option throws a TypeError. -/
theorem ctor_falsy_api_ok_cex :
    nodecafNew (OptsArg.obj { api := JSVal.bool false }) =
      Except.ok ⟨jsNoop, jsNoop, jsNoop, defaultBuilder⟩ ∧
    isError (nodecafNew (OptsArg.obj { api := JSVal.bool false })) = false := by
  decide

/-- Resolving an option against a function default yields a function exactly
when the supplied value is not truthy-and-not-a-function. -/
theorem isFunc_jsOr (v d : JSVal) (hd : isFunc d = true) :
    isFunc (jsOr v d) = ! truthyNonFunc v := by
  unfold jsOr truthyNonFunc
  cases hv : truthy v <;> cases hx : isFunc v <;> simp [hv, hx, hd]

/-- Claim C9, amended: the constructor throws a TypeError whenever its
options argument is a non-object value (other than `undefined`, which is
replaced by the `opts = {}` default), and, for an object argument, it throws
a TypeError exactly when one of the supplied `api`, `startup`, `shutdown`,
`server` options is truthy and not a function — a falsy non-function value
(such as `false` or `0`) silently falls back to the default.  With no
options it succeeds, installing the noop startup and shutdown hooks and the
default HTTP server builder. -/
theorem ctor_typeerror_conditions :
    (∀ v : JSVal, v ≠ JSVal.undef → v ≠ JSVal.objv →
      isError (nodecafNew (OptsArg.val v)) = true) ∧
    (∀ o : Opts, isError (nodecafNew (OptsArg.obj o)) = true ↔
      (truthyNonFunc o.api = true ∨ truthyNonFunc o.startup = true ∨
       truthyNonFunc o.shutdown = true ∨ truthyNonFunc o.server = true)) ∧
    nodecafNew (OptsArg.obj {}) = Except.ok ⟨jsNoop, jsNoop, jsNoop, defaultBuilder⟩ := by
  refine ⟨?_, ?_, by decide⟩
  · intro v h1 h2
    cases v
    case undef => exact absurd rfl h1
    case objv => exact absurd rfl h2
    all_goals rfl
  · intro o
    have hnew : nodecafNew (OptsArg.obj o) = validateOpts (OptsArg.obj o) := by
      simp [nodecafNew]
    rw [hnew]
    have h1 := isFunc_jsOr o.api jsNoop rfl
    have h2 := isFunc_jsOr o.startup jsNoop rfl
    have h3 := isFunc_jsOr o.shutdown jsNoop rfl
    have h4 := isFunc_jsOr o.server defaultBuilder rfl
    simp only [validateOpts, typeofArg, getField]
    by_cases c1 : truthyNonFunc o.api = true <;>
      by_cases c2 : truthyNonFunc o.startup = true <;>
        by_cases c3 : truthyNonFunc o.shutdown = true <;>
          by_cases c4 : truthyNonFunc o.server = true <;>
            simp [c1, c2, c3, c4, h1, h2, h3, h4, isError]

/-- Claim C9 witness: a number is rejected both as the options argument and
as a supplied truthy non-function `api` option. -/
theorem ctor_typeerror_conditions_witness :
    isError (nodecafNew (OptsArg.val (JSVal.num 3))) = true ∧
    isError (nodecafNew (OptsArg.obj { api := JSVal.num 3 })) = true :=
  ⟨ctor_typeerror_conditions.1 (JSVal.num 3) (by decide) (by decide),
   (ctor_typeerror_conditions.2.1 { api := JSVal.num 3 }).mpr (Or.inl (by decide))⟩

/-! ### Lifecycle evaluation lemmas -/

/-- `stop()` on a `stopping` or `standby` instance is the early return of
lines 127-128. -/
theorem stopSeq_noop (a : App)
    (h : a.state = LState.stopping ∨ a.state = LState.standby) :
    stopSeq a = ⟨a, [], LRes.ok a.state⟩ := by
  simp only [stopSeq]
  rw [if_pos h]

/-- `start()` on a `running` or `starting` instance is the early return of
lines 99-100. -/
theorem startSeq_noop (a : App)
    (h : a.state = LState.running ∨ a.state = LState.starting) :
    startSeq a = ⟨a, [], LRes.ok a.state⟩ := by
  simp only [startSeq]
  rw [if_pos h]

/-- Evaluation of a successful `stop()` from `running`. -/
theorem stopSeq_run (a : App) (h : a.state = LState.running)
    (hs : a.shutdownErr = none) :
    stopSeq a = ⟨{ a with state := LState.standby, globalSet := false },
      ((if a.serverSet then [Eff.closeListener] else []) ++ [Eff.runShutdown]) ++
        [Eff.logStopped], LRes.ok LState.standby⟩ := by
  simp [stopSeq, h, hs]

/-- Evaluation of a failed `stop()` from `running`: the hook error is
re-raised with the state left at `stopping`. -/
theorem stopSeq_run_err (a : App) (e : String) (h : a.state = LState.running)
    (hs : a.shutdownErr = some e) :
    stopSeq a = ⟨{ a with state := LState.stopping },
      (if a.serverSet then [Eff.closeListener] else []) ++ [Eff.runShutdown],
      LRes.err e⟩ := by
  simp [stopSeq, h, hs]

/-- Evaluation of a successful `start()` from `standby` when a port is
configured. -/
theorem startSeq_run_port (a : App) (h : a.state = LState.standby)
    (hs : a.startupErr = none) (hp : confPortTruthy a.conf = true) :
    startSeq a =
      ⟨{ a with state := LState.running, globalSet := true, serverSet := true },
      (Eff.waitDelay :: (if a.startupNoop then [] else [Eff.logStartingUp]) ++
        [Eff.runStartup]) ++ [Eff.bindListener (portVal a.conf)],
      LRes.ok LState.running⟩ := by
  simp [startSeq, h, hs, hp]

/-- Evaluation of a successful `start()` from `standby` when no port is
configured: headless mode, no listener bind, the simplified started event. -/
theorem startSeq_run_noport (a : App) (h : a.state = LState.standby)
    (hs : a.startupErr = none) (hp : confPortTruthy a.conf = false) :
    startSeq a = ⟨{ a with state := LState.running, globalSet := true },
      (Eff.waitDelay :: (if a.startupNoop then [] else [Eff.logStartingUp]) ++
        [Eff.runStartup]) ++ [Eff.logStarted],
      LRes.ok LState.running⟩ := by
  simp [startSeq, h, hs, hp]

/-- Evaluation of a failed `start()` from `standby`: the startup hook error
is re-raised with the state left at `starting` and no listener bound. -/
theorem startSeq_run_err (a : App) (e : String) (h : a.state = LState.standby)
    (hs : a.startupErr = some e) :
    startSeq a = ⟨{ a with state := LState.starting, globalSet := true },
      Eff.waitDelay :: (if a.startupNoop then [] else [Eff.logStartingUp]) ++
        [Eff.runStartup],
      LRes.err e⟩ := by
  simp [startSeq, h, hs]

/-! ### Claim C4 -/

/-- Claim C4: `stop()` is idempotent and never fails when called twice in
succession: whenever the state is already `standby` or `stopping`, it
performs no transition work (instance unchanged, no effects) and returns
the current state without raising; and after a successful `stop()` from
`running`, a second `stop()` is exactly such a no-op resolving with
`standby`. -/
theorem stop_idempotent :
    (∀ a : App, a.state = LState.standby ∨ a.state = LState.stopping →
      stopSeq a = ⟨a, [], LRes.ok a.state⟩) ∧
    (∀ a : App, a.state = LState.running → a.shutdownErr = none →
      (stopSeq a).res = LRes.ok LState.standby ∧
      stopSeq (stopSeq a).app = ⟨(stopSeq a).app, [], LRes.ok LState.standby⟩) := by
  constructor
  · intro a h
    exact stopSeq_noop a h.symm
  · intro a h hs
    rw [stopSeq_run a h hs]
    constructor
    · rfl
    · exact stopSeq_noop _ (Or.inr rfl)

/-- Claim C4 witness: concrete no-op stops on a standby and on a stopping
instance, and a successful stop followed by a no-op stop. -/
theorem stop_idempotent_witness :
    stopSeq ⟨LState.standby, [], false, false, true, none, none⟩ =
      ⟨⟨LState.standby, [], false, false, true, none, none⟩, [], LRes.ok LState.standby⟩ ∧
    stopSeq ⟨LState.stopping, [], false, false, true, none, none⟩ =
      ⟨⟨LState.stopping, [], false, false, true, none, none⟩, [], LRes.ok LState.stopping⟩ ∧
    stopSeq (stopSeq ⟨LState.running, [], true, true, true, none, none⟩).app =
      ⟨(stopSeq ⟨LState.running, [], true, true, true, none, none⟩).app, [],
        LRes.ok LState.standby⟩ :=
  ⟨stop_idempotent.1 _ (Or.inl rfl),
   stop_idempotent.1 _ (Or.inr rfl),
   (stop_idempotent.2 ⟨LState.running, [], true, true, true, none, none⟩ rfl rfl).2⟩

/-! ### Claim C10 -/

/-- Claim C10: `stop()` on a running server that was started without a
configured port (no listener bound) does not raise: it skips the listener
close, still runs the shutdown hook, deletes the exposed-globals map, logs
the stop event and resolves with `standby`. -/
theorem stop_headless_ok (a : App) (h : a.state = LState.running)
    (hsrv : a.serverSet = false) (hs : a.shutdownErr = none) :
    stopSeq a = ⟨{ a with state := LState.standby, globalSet := false },
      [Eff.runShutdown, Eff.logStopped], LRes.ok LState.standby⟩ ∧
    Eff.closeListener ∉ (stopSeq a).trace := by
  have he := stopSeq_run a h hs
  rw [he]
  simp [hsrv]

/-- Claim C10 witness: a concrete headless running instance stops cleanly. -/
theorem stop_headless_ok_witness :
    stopSeq ⟨LState.running, [], true, false, true, none, none⟩ =
      ⟨⟨LState.standby, [], false, false, true, none, none⟩,
        [Eff.runShutdown, Eff.logStopped], LRes.ok LState.standby⟩ ∧
    Eff.closeListener ∉
      (stopSeq ⟨LState.running, [], true, false, true, none, none⟩).trace :=
  stop_headless_ok ⟨LState.running, [], true, false, true, none, none⟩ rfl rfl rfl

/-! ### Claim C6 -/

/-- Claim C6: a failing user startup or shutdown hook makes the lifecycle
call fail with that same error rather than swallowing it, and the server
remains in the intermediate state (`starting` resp. `stopping`) it held
when the hook was invoked; the startup failure also prevents any listener
bind. -/
theorem hook_failure_propagates :
    (∀ (a : App) (e : String), a.state = LState.standby → a.startupErr = some e →
      (startSeq a).res = LRes.err e ∧
      (startSeq a).app.state = LState.starting ∧
      Eff.runStartup ∈ (startSeq a).trace ∧
      (startSeq a).trace.filter isBind = []) ∧
    (∀ (a : App) (e : String), a.state = LState.running → a.shutdownErr = some e →
      (stopSeq a).res = LRes.err e ∧
      (stopSeq a).app.state = LState.stopping ∧
      Eff.runShutdown ∈ (stopSeq a).trace ∧
      Eff.logStopped ∉ (stopSeq a).trace) := by
  constructor
  · intro a e h hs
    rw [startSeq_run_err a e h hs]
    refine ⟨rfl, rfl, by simp, ?_⟩
    cases hn : a.startupNoop <;> simp [hn, isBind]
  · intro a e h hs
    rw [stopSeq_run_err a e h hs]
    refine ⟨rfl, rfl, by simp, ?_⟩
    cases hv : a.serverSet <;> simp [hv]

/-- Claim C6 witness: concrete failing hooks on concrete instances. -/
theorem hook_failure_propagates_witness :
    (startSeq ⟨LState.standby, [], false, false, false, some "boom", none⟩).res =
      LRes.err "boom" ∧
    (startSeq ⟨LState.standby, [], false, false, false, some "boom", none⟩).app.state =
      LState.starting ∧
    (stopSeq ⟨LState.running, [], true, true, false, none, some "crash"⟩).res =
      LRes.err "crash" ∧
    (stopSeq ⟨LState.running, [], true, true, false, none, some "crash"⟩).app.state =
      LState.stopping := by
  have h1 := hook_failure_propagates.1
    ⟨LState.standby, [], false, false, false, some "boom", none⟩ "boom" rfl rfl
  have h2 := hook_failure_propagates.2
    ⟨LState.running, [], true, true, false, none, some "crash"⟩ "crash" rfl rfl
  exact ⟨h1.1, h1.2.1, h2.1, h2.2.1⟩

/-! ### Claim C5 -/

/-- Claim C5: when the state is already `running` or `starting`, `start()`
returns the current state without performing any startup work (instance
unchanged, no delay wait, no hook invocation, no listener bind); and in
every interleaving of two concurrent `start()` calls racing from `standby`,
once both have finished exactly one listener bind was performed — one call
did the transition work and the other resolved via the early return. -/
theorem start_noop_when_active_single_bind :
    (∀ a : App, a.state = LState.running ∨ a.state = LState.starting →
      startSeq a = ⟨a, [], LRes.ok a.state⟩) ∧
    (∀ s : Sys, Reaches stepSS initSS s →
      isDone s.pc1 = true → isDone s.pc2 = true →
      s.bind = 1 ∧
      ((s.pc1 = PC.fOk ∧ s.pc2 = PC.fEarly) ∨
       (s.pc1 = PC.fEarly ∧ s.pc2 = PC.fOk))) := by
  constructor
  · intro a h
    exact startSeq_noop a h
  · intro s hr hd1 hd2
    have hm : s ∈ reachSS := reaches_mem reachSS_init reachSS_closed s hr
    have hall : ∀ x ∈ reachSS, isDone x.pc1 = true → isDone x.pc2 = true →
        x.bind = 1 ∧
        ((x.pc1 = PC.fOk ∧ x.pc2 = PC.fEarly) ∨
         (x.pc1 = PC.fEarly ∧ x.pc2 = PC.fOk)) := by decide
    exact hall s hm hd1 hd2

/-- Claim C5 witness: the early return on a concrete running instance, plus
a concrete complete interleaving of the start/start race reaching a state
where both calls finished with a single bind. -/
theorem start_noop_when_active_single_bind_witness :
    startSeq ⟨LState.running, [], true, true, true, none, none⟩ =
      ⟨⟨LState.running, [], true, true, true, none, none⟩, [], LRes.ok LState.running⟩ ∧
    ((⟨LState.running, 1, PC.fOk, PC.fEarly⟩ : Sys).bind = 1 ∧
      (((⟨LState.running, 1, PC.fOk, PC.fEarly⟩ : Sys).pc1 = PC.fOk ∧
        (⟨LState.running, 1, PC.fOk, PC.fEarly⟩ : Sys).pc2 = PC.fEarly) ∨
       ((⟨LState.running, 1, PC.fOk, PC.fEarly⟩ : Sys).pc1 = PC.fEarly ∧
        (⟨LState.running, 1, PC.fOk, PC.fEarly⟩ : Sys).pc2 = PC.fOk))) := by
  refine ⟨start_noop_when_active_single_bind.1 _ (Or.inl rfl), ?_⟩
  have hr : Reaches stepSS initSS ⟨LState.running, 1, PC.fOk, PC.fEarly⟩ := by
    have r1 : Reaches stepSS initSS ⟨LState.starting, 0, PC.s1, PC.g⟩ :=
      Reaches.tail Reaches.refl (by decide)
    have r2 : Reaches stepSS initSS ⟨LState.starting, 0, PC.s2, PC.g⟩ :=
      Reaches.tail r1 (by decide)
    have r3 : Reaches stepSS initSS ⟨LState.starting, 1, PC.s3, PC.g⟩ :=
      Reaches.tail r2 (by decide)
    have r4 : Reaches stepSS initSS ⟨LState.running, 1, PC.fOk, PC.g⟩ :=
      Reaches.tail r3 (by decide)
    exact Reaches.tail r4 (by decide)
  exact start_noop_when_active_single_bind.2 _ hr rfl rfl

/-! ### Claim C3 -/

/-- Claim C3: a `start()` arriving while the state is `stopping` (and
symmetrically a `stop()` arriving while `starting`) does not transition the
state: it resolves by re-invoking itself after the fixed `retryShortly`
backoff, leaving the instance untouched.  At the model level the polling
guard is a self-loop that keeps the shared state unchanged, and it proceeds
exactly when the competing transition has completed.  In every interleaving
of a stop in progress raced by a start (and of a start in progress raced by
a stop), the two calls are never both inside their critical transition
work, and the waiting call only transitions after the competing call has
fully finished its own transition work. -/
theorem lifecycle_retry_mutual_exclusion :
    (∀ a : App, a.state = LState.stopping → startSeq a = ⟨a, [], LRes.retry⟩) ∧
    (∀ a : App, a.state = LState.starting → stopSeq a = ⟨a, [], LRes.retry⟩) ∧
    (∀ b : Nat, startStepT LState.stopping b PC.g = some (LState.stopping, b, PC.g)) ∧
    (∀ b : Nat, startStepT LState.standby b PC.g = some (LState.starting, b, PC.s1)) ∧
    (∀ s : Sys, Reaches stepTS initTS s →
      (critStop s.pc1 && critStart s.pc2) = false) ∧
    (∀ s : Sys, Reaches stepTS initTS s →
      critStart s.pc2 = true ∨ s.pc2 = PC.fOk → s.pc1 = PC.fOk) ∧
    (∀ s : Sys, Reaches stepST initST s →
      (critStart s.pc1 && critStop s.pc2) = false) ∧
    (∀ s : Sys, Reaches stepST initST s →
      critStop s.pc2 = true ∨ s.pc2 = PC.fOk → s.pc1 = PC.fOk) := by
  refine ⟨?_, ?_, fun _ => rfl, fun _ => rfl, ?_, ?_, ?_, ?_⟩
  · intro a h
    simp [startSeq, h]
  · intro a h
    simp [stopSeq, h]
  · intro s hr
    have hm : s ∈ reachTS := reaches_mem reachTS_init reachTS_closed s hr
    have hall : ∀ x ∈ reachTS, (critStop x.pc1 && critStart x.pc2) = false := by decide
    exact hall s hm
  · intro s hr hs
    have hm : s ∈ reachTS := reaches_mem reachTS_init reachTS_closed s hr
    have hall : ∀ x ∈ reachTS,
        critStart x.pc2 = true ∨ x.pc2 = PC.fOk → x.pc1 = PC.fOk := by decide
    exact hall s hm hs
  · intro s hr
    have hm : s ∈ reachST := reaches_mem reachST_init reachST_closed s hr
    have hall : ∀ x ∈ reachST, (critStart x.pc1 && critStop x.pc2) = false := by decide
    exact hall s hm
  · intro s hr hs
    have hm : s ∈ reachST := reaches_mem reachST_init reachST_closed s hr
    have hall : ∀ x ∈ reachST,
        critStop x.pc2 = true ∨ x.pc2 = PC.fOk → x.pc1 = PC.fOk := by decide
    exact hall s hm hs

/-- Claim C3 witness: the retry outcomes on concrete instances, and a
concrete interleaving of the stop-raced-by-start system in which the start
call transitions only after the stop call has fully finished. -/
theorem lifecycle_retry_mutual_exclusion_witness :
    startSeq ⟨LState.stopping, [], true, true, true, none, none⟩ =
      ⟨⟨LState.stopping, [], true, true, true, none, none⟩, [], LRes.retry⟩ ∧
    stopSeq ⟨LState.starting, [], true, false, true, none, none⟩ =
      ⟨⟨LState.starting, [], true, false, true, none, none⟩, [], LRes.retry⟩ ∧
    (critStop (⟨LState.stopping, 0, PC.t1, PC.g⟩ : Sys).pc1 &&
      critStart (⟨LState.stopping, 0, PC.t1, PC.g⟩ : Sys).pc2) = false ∧
    (⟨LState.starting, 0, PC.fOk, PC.s1⟩ : Sys).pc1 = PC.fOk := by
  refine ⟨lifecycle_retry_mutual_exclusion.1 _ rfl,
    lifecycle_retry_mutual_exclusion.2.1 _ rfl,
    lifecycle_retry_mutual_exclusion.2.2.2.2.1 initTS Reaches.refl, ?_⟩
  have u1 : Reaches stepTS initTS ⟨LState.stopping, 0, PC.t2, PC.g⟩ :=
    Reaches.tail Reaches.refl (by decide)
  have u2 : Reaches stepTS initTS ⟨LState.standby, 0, PC.fOk, PC.g⟩ :=
    Reaches.tail u1 (by decide)
  have u3 : Reaches stepTS initTS ⟨LState.starting, 0, PC.fOk, PC.s1⟩ :=
    Reaches.tail u2 (by decide)
  exact lifecycle_retry_mutual_exclusion.2.2.2.2.2.1 _ u3 (Or.inl rfl)

/-! ### Claim C2 -/

/-- Claim C2, counterexample: on a configuration without a `port` key,
`start()` resolves in headless mode with no listener bound and no default
port of 80 substituted — the same holds when ssl material is configured
(`conf.port` stays unset, so the guard on line 118 skips `startServer`
entirely and no 443 default appears). -/
theorem start_no_port_headless_cex :
    (startSeq ⟨LState.standby, [], false, false, true, none, none⟩).res =
      LRes.ok LState.running ∧
    (startSeq ⟨LState.standby, [], false, false, true, none, none⟩).trace.filter isBind = [] ∧
    (startSeq ⟨LState.standby, [], false, false, true, none, none⟩).app.serverSet = false ∧
    Eff.logStarted ∈ (startSeq ⟨LState.standby, [], false, false, true, none, none⟩).trace ∧
    (startSeq ⟨LState.standby, [("ssl", CVal.str "material")], false, false, true,
        none, none⟩).trace.filter isBind = [] ∧
    (startSeq ⟨LState.standby, [("ssl", CVal.str "material")], false, false, true,
        none, none⟩).app.serverSet = false := by
  decide

/-- Claim C2, amended: `start()` binds a listener exactly when the
configuration has a truthy `port` key, and then on that configured port; a
configuration without a port starts headless — no listener is bound, no
default of 80 (or 443 under ssl) is substituted, and the simplified started
event is logged. -/
theorem start_port_gate (a : App) (h : a.state = LState.standby)
    (hs : a.startupErr = none) :
    (confPortTruthy a.conf = false →
      (startSeq a).trace.filter isBind = [] ∧
      (startSeq a).app.serverSet = a.serverSet ∧
      Eff.logStarted ∈ (startSeq a).trace ∧
      (startSeq a).res = LRes.ok LState.running) ∧
    (confPortTruthy a.conf = true →
      Eff.bindListener (portVal a.conf) ∈ (startSeq a).trace ∧
      (startSeq a).app.serverSet = true ∧
      (startSeq a).res = LRes.ok LState.running) := by
  constructor
  · intro hp
    rw [startSeq_run_noport a h hs hp]
    refine ⟨?_, rfl, by simp, rfl⟩
    cases hn : a.startupNoop <;> simp [hn, isBind]
  · intro hp
    rw [startSeq_run_port a h hs hp]
    exact ⟨by simp, rfl, rfl⟩

/-- Claim C2 witness: a concrete headless start and a concrete start with a
configured port 8080. -/
theorem start_port_gate_witness :
    (startSeq ⟨LState.standby, [("delay", CVal.num 5)], false, false, true,
        none, none⟩).trace.filter isBind = [] ∧
    Eff.bindListener (CVal.num 8080) ∈
      (startSeq ⟨LState.standby, [("port", CVal.num 8080)], false, false, true,
        none, none⟩).trace := by
  refine ⟨(start_port_gate _ rfl rfl).1 (by decide) |>.1, ?_⟩
  have h := (start_port_gate
    ⟨LState.standby, [("port", CVal.num 8080)], false, false, true, none, none⟩
    rfl rfl).2 (by decide)
  exact h.1

/-! ### Claim C7 -/

/-- Layering semantics of the configuration snapshot: a key is looked up in
the new layer first and falls back to the previous snapshot. -/
theorem confGet_confortLayer (old new : Conf) (k : String) :
    confGet (confortLayer old new) k = (confGet new k).or (confGet old k) := by
  unfold confortLayer confGet
  rw [List.find?_append]
  cases new.find? (fun p => p.1 == k) <;> simp

/-- No branch of `stop()` logs the reloaded-settings event. -/
theorem logReloaded_not_in_stopSeq (a : App) :
    Eff.logReloaded ∉ (stopSeq a).trace := by
  by_cases h1 : a.state = LState.stopping ∨ a.state = LState.standby
  · simp [stopSeq, h1]
  · by_cases h2 : a.state = LState.starting
    · simp [stopSeq, h1, h2]
    · cases hse : a.shutdownErr <;> cases hsv : a.serverSet <;>
        simp [stopSeq, h1, h2, hse, hsv]

/-- No branch of `start()` logs the reloaded-settings event. -/
theorem logReloaded_not_in_startSeq (a : App) :
    Eff.logReloaded ∉ (startSeq a).trace := by
  by_cases h1 : a.state = LState.running ∨ a.state = LState.starting
  · simp [startSeq, h1]
  · by_cases h2 : a.state = LState.stopping
    · simp [startSeq, h1, h2]
    · cases hse : a.startupErr <;> cases hsn : a.startupNoop <;>
        cases hp : confPortTruthy a.conf <;>
          simp [startSeq, h1, h2, hse, hsn, hp]

/-- Claim C7: for every configuration object passed to `restart(conf)` on a
running server with succeeding hooks, the resulting snapshot is `conf`
layered on top of the previous one (keys of `conf` override, all other keys
are preserved), exactly one reloaded-settings record is logged, the whole
call resolves, and the new layer is applied after `stop()`'s effects and
before `start()` runs — the `start()` segment of the trace is computed from
the already-layered snapshot. -/
theorem restart_layers_conf (a : App) (c : Conf) (h : a.state = LState.running)
    (h1 : a.startupErr = none) (h2 : a.shutdownErr = none) :
    (∀ k, confGet (restartSeq a (some c)).app.conf k
        = ((confGet c k).or (confGet a.conf k))) ∧
    (restartSeq a (some c)).trace.count Eff.logReloaded = 1 ∧
    (restartSeq a (some c)).trace
      = (stopSeq a).trace ++ Eff.logReloaded ::
          (startSeq { (stopSeq a).app with conf := confortLayer a.conf c }).trace ∧
    (restartSeq a (some c)).res = LRes.ok LState.running := by
  have hstop := stopSeq_run a h h2
  have hmid : (stopSeq a).app.state = LState.standby := by rw [hstop]
  have hmidconf : (stopSeq a).app.conf = a.conf := by rw [hstop]
  have hmiderr : (stopSeq a).app.startupErr = none := by rw [hstop]; exact h1
  have hres : (stopSeq a).res = LRes.ok LState.standby := by rw [hstop]
  have hre : restartSeq a (some c)
      = ⟨(startSeq { (stopSeq a).app with conf := confortLayer (stopSeq a).app.conf c }).app,
          ((stopSeq a).trace ++ [Eff.logReloaded]) ++
            (startSeq { (stopSeq a).app with conf := confortLayer (stopSeq a).app.conf c }).trace,
          (startSeq { (stopSeq a).app with conf := confortLayer (stopSeq a).app.conf c }).res⟩ := by
    simp only [restartSeq, hres]
  rw [hmidconf] at hre
  have hm2state : ({ (stopSeq a).app with conf := confortLayer a.conf c } : App).state
      = LState.standby := hmid
  have hm2err : ({ (stopSeq a).app with conf := confortLayer a.conf c } : App).startupErr
      = none := hmiderr
  have hconf : (startSeq { (stopSeq a).app with conf := confortLayer a.conf c }).app.conf
      = confortLayer a.conf c ∧
      (startSeq { (stopSeq a).app with conf := confortLayer a.conf c }).res
      = LRes.ok LState.running := by
    by_cases hp : confPortTruthy (confortLayer a.conf c) = true
    · rw [startSeq_run_port _ hm2state hm2err hp]
      exact ⟨rfl, rfl⟩
    · rw [startSeq_run_noport _ hm2state hm2err (by simpa using hp)]
      exact ⟨rfl, rfl⟩
  refine ⟨?_, ?_, ?_, ?_⟩
  · intro k
    rw [hre]
    simp only [hconf.1]
    exact confGet_confortLayer a.conf c k
  · rw [hre]
    simp only [List.append_assoc, List.count_append, List.singleton_append,
      List.count_cons]
    rw [List.count_eq_zero.mpr (logReloaded_not_in_stopSeq a),
      List.count_eq_zero.mpr (logReloaded_not_in_startSeq _)]
    simp
  · rw [hre]
    simp
  · rw [hre]
    exact hconf.2

/-- Claim C7 witness: restarting a concrete running server with the layer
overriding `port` and leaving `x` untouched. -/
theorem restart_layers_conf_witness :
    confGet (restartSeq
        ⟨LState.running, [("port", CVal.num 80), ("x", CVal.num 1)], true, true, true,
          none, none⟩
        (some [("port", CVal.num 81)])).app.conf "port"
      = ((confGet [("port", CVal.num 81)] "port").or
          (confGet [("port", CVal.num 80), ("x", CVal.num 1)] "port")) ∧
    confGet (restartSeq
        ⟨LState.running, [("port", CVal.num 80), ("x", CVal.num 1)], true, true, true,
          none, none⟩
        (some [("port", CVal.num 81)])).app.conf "x"
      = ((confGet [("port", CVal.num 81)] "x").or
          (confGet [("port", CVal.num 80), ("x", CVal.num 1)] "x")) ∧
    (restartSeq
        ⟨LState.running, [("port", CVal.num 80), ("x", CVal.num 1)], true, true, true,
          none, none⟩
        (some [("port", CVal.num 81)])).trace.count Eff.logReloaded = 1 ∧
    (restartSeq
        ⟨LState.running, [("port", CVal.num 80), ("x", CVal.num 1)], true, true, true,
          none, none⟩
        (some [("port", CVal.num 81)])).res = LRes.ok LState.running := by
  have h := restart_layers_conf
    ⟨LState.running, [("port", CVal.num 80), ("x", CVal.num 1)], true, true, true,
      none, none⟩
    [("port", CVal.num 81)] rfl rfl rfl
  exact ⟨h.1 "port", h.1 "x", h.2.1, h.2.2.2⟩

end Nodecaf
